import Mathlib

/-!
Shallow embedding of the AgriConnect marketplace backend
(`src/index.js` and its near-duplicate variant `src/index-sqlite.js`).

Conventions of the embedding:
* Database tables are Lean lists of row structures; a SQL INSERT appends a
  row, and a transaction that rolls back returns the original database value
  (only committed states are modelled, matching what readers of the store can
  observe after the handler finishes).
* Row ids (UUIDs in the source) are opaque; they are modelled as `Nat` and
  server-assigned ids are passed to the handler as explicit parameters.
  Surrogate primary keys that no query ever reads back (the `id` column of
  `order_items`) are omitted from the row structure.
* `DECIMAL`/`REAL` money columns are modelled as `ℚ`; `INTEGER` columns as
  `Int` or `Nat` following their use.
* JavaScript string truthiness (`if (!name)`) is modelled as comparison with
  the empty string; an absent JSON field is an `Option` that is `none`.
* `Date.now()` is an explicit `now : Nat` argument (milliseconds).
* `jwt.sign` / `jwt.verify` are modelled as a transparent pairing of the
  payload: signing wraps the payload in a token value and decoding unwraps
  it, which embeds the round-trip behaviour `verify (sign p) = p` of the
  library on untampered tokens.
-/

namespace AgriConnect

/-- A row of the `users` table (columns used by the handlers under study). -/
structure UserRow where
  id : Nat
  name : String
  email : Option String
  phone : String
  role : String
  location : Option String
  is_verified : Bool
  deriving Repr, DecidableEq

/-- A row of the `equipment` table. `created_at` is a millisecond timestamp. -/
structure EquipmentRow where
  id : Nat
  owner_id : Nat
  name : String
  type : String
  description : Option String
  base_rate_per_day : ℚ
  location : String
  availability_status : String
  created_at : Nat
  deriving Repr, DecidableEq

/-- A row of the `produce` table. -/
structure ProduceRow where
  id : Nat
  farmer_id : Nat
  name : String
  category : String
  price_per_kg : ℚ
  stock_kg : Int
  organic : Bool
  created_at : Nat
  deriving Repr, DecidableEq

/-- A row of the `products` table (input supplies; only in `index.js`). -/
structure ProductRow where
  id : Nat
  supplier_id : Nat
  name : String
  category : String
  price_per_unit : ℚ
  stock_quantity : Int
  deriving Repr, DecidableEq

/-- A row of the `orders` table. -/
structure OrderRow where
  id : Nat
  buyer_id : Nat
  seller_id : Nat
  total_amount : ℚ
  delivery_address : Option String
  deriving Repr, DecidableEq

/-- A row of the `order_items` table (surrogate `id` omitted: never read). -/
structure OrderItemRow where
  order_id : Nat
  produce_id : Option Nat
  product_id : Option Nat
  quantity : Nat
  unit_price : ℚ
  total_price : ℚ
  deriving Repr, DecidableEq

/-- The relational store: one list per table touched by the claims. -/
structure DB where
  users : List UserRow
  equipment : List EquipmentRow
  produce : List ProduceRow
  products : List ProductRow
  orders : List OrderRow
  order_items : List OrderItemRow
  deriving Repr, DecidableEq

/-! ## Order creation (`POST /api/v1/orders`, `src/index.js` lines 518-573) -/

/-- The discriminant `item.type` of a request line item. The handler has one
branch for `'produce'` and one for `'product'`; the claims only concern
requests using these two kinds, so the discriminant is embedded as a closed
inductive. -/
inductive CatalogType where
  | produce
  | product
  deriving Repr, DecidableEq

/-- One element of the `items` array of an order request body. -/
structure OrderReqItem where
  type : CatalogType
  itemId : Nat
  sellerId : Nat
  quantity : Nat
  deriving Repr, DecidableEq

/-- Price lookup done per line item: `SELECT price_per_kg FROM produce WHERE
id = $1` resp. `SELECT price_per_unit FROM products WHERE id = $1`; `none`
when the referenced catalog row is absent (in the source, reading
`rows[0].price_per_kg` of an empty result throws inside the transaction). -/
def resolveUnitPrice (db : DB) (it : OrderReqItem) : Option ℚ :=
  match it.type with
  | .produce => (db.produce.find? (fun p => p.id == it.itemId)).map (·.price_per_kg)
  | .product => (db.products.find? (fun p => p.id == it.itemId)).map (·.price_per_unit)

/-- The body of the `for (const item of items)` loop: resolves each unit
price, builds the `order_items` rows in request order and accumulates
`totalAmount`; `none` models the throw (and subsequent rollback) when a
catalog lookup comes back empty. -/
def insertOrderItems (db : DB) (orderId : Nat) : List OrderReqItem → Option (List OrderItemRow × ℚ)
  | [] => some ([], 0)
  | it :: rest =>
    match resolveUnitPrice db it with
    | none => none
    | some unitPrice =>
      let itemTotal := unitPrice * (it.quantity : ℚ)
      match insertOrderItems db orderId rest with
      | none => none
      | some (rows, total) =>
        some ({ order_id := orderId
                produce_id := if it.type = .produce then some it.itemId else none
                product_id := if it.type = .product then some it.itemId else none
                quantity := it.quantity
                unit_price := unitPrice
                total_price := itemTotal } :: rows,
              itemTotal + total)

/-- Outcome of the order handler: HTTP status, the committed database state
(unchanged on rollback), and the created order id on success. -/
structure OrdersResult where
  status : Nat
  db : DB
  orderId : Option Nat
  deriving Repr, DecidableEq

/-- The `POST /api/v1/orders` handler. `items?` is the request's `items`
field (`none` when absent). The handler opens a transaction, reads
`items[0].sellerId` (which throws for an absent or empty array — both throws
happen inside the transaction scope), inserts the order header with
`total_amount = 0`, inserts the line items, updates the header's total and
commits; any throw rolls everything back and the outer catch answers 500.
Only the committed (or rolled-back) final state is modelled. -/
def createOrder (db : DB) (buyerId : Nat) (items? : Option (List OrderReqItem))
    (deliveryAddress : Option String) (newOrderId : Nat) : OrdersResult :=
  match items? with
  | none => { status := 500, db := db, orderId := none }
  | some [] => { status := 500, db := db, orderId := none }
  | some (first :: rest) =>
    let sellerId := first.sellerId
    match insertOrderItems db newOrderId (first :: rest) with
    | none => { status := 500, db := db, orderId := none }
    | some (rows, totalAmount) =>
      { status := 201
        db := { db with
                orders := db.orders ++
                  [{ id := newOrderId, buyer_id := buyerId, seller_id := sellerId,
                     total_amount := totalAmount, delivery_address := deliveryAddress }]
                order_items := db.order_items ++ rows }
        orderId := some newOrderId }

/-- The catalog unit price of a line item, defaulting to 0 (only used under
the hypothesis that the lookup succeeds). -/
def catalogPrice (db : DB) (it : OrderReqItem) : ℚ :=
  (resolveUnitPrice db it).getD 0

/-- Sum over the items of catalog unit price times quantity. -/
def itemsTotal (db : DB) (items : List OrderReqItem) : ℚ :=
  (items.map (fun it => catalogPrice db it * (it.quantity : ℚ))).sum

/-! ## Authentication module (`src/index.js` lines 182-338) -/

/-- The payload `jwt.sign` embeds into a session token:
`{ userId: user.id, phone: user.phone, role: user.role }`. -/
structure JwtPayload where
  userId : Nat
  phone : String
  role : String
  deriving Repr, DecidableEq

/-- A signed session token. The signature and the 7-day expiry window are
abstracted away: the token transparently carries its payload, embedding the
round-trip law of the JWT library on untampered, unexpired tokens. -/
structure SessionToken where
  payload : JwtPayload
  deriving Repr, DecidableEq

/-- Model of `jwt.sign` on the handler's payload. -/
def jwtSign (p : JwtPayload) : SessionToken := ⟨p⟩

/-- Model of decoding a valid token (`jwt.verify` on an untampered token). -/
def jwtDecode (t : SessionToken) : JwtPayload := t.payload

/-- The pending-registration payload stored alongside an OTP
(`userData` in the source). -/
structure PendingUser where
  name : String
  email : Option String
  phone : String
  role : String
  location : Option String
  deriving Repr, DecidableEq

/-- One entry of the in-memory `otpStore` map:
`{ otp, userData?, expiresAt }`. -/
structure OtpEntry where
  otp : String
  userData : Option PendingUser
  expiresAt : Nat
  deriving Repr, DecidableEq

/-- The process-wide `otpStore` (`new Map()`), keyed by phone. -/
def OtpStore : Type := List (String × OtpEntry)

/-- `otpStore.get(phone)`. -/
def storeGet (st : OtpStore) (phone : String) : Option OtpEntry :=
  (List.find? (fun p => p.1 == phone) st).map (·.2)

/-- `otpStore.set(phone, entry)`: replaces any previous entry for the key. -/
def storeSet (st : OtpStore) (phone : String) (e : OtpEntry) : OtpStore :=
  (phone, e) :: List.filter (fun p => p.1 != phone) st

/-- `otpStore.delete(phone)`. -/
def storeDelete (st : OtpStore) (phone : String) : OtpStore :=
  List.filter (fun p => p.1 != phone) st

/-- The duplicate-user check of the register handler:
`SELECT id FROM users WHERE phone = $1 OR email = $2`. When the request has
no email the parameter is SQL NULL and `email = NULL` matches no row. -/
def userExistsConflict (db : DB) (phone : String) (email : Option String) : Bool :=
  db.users.any (fun u =>
    u.phone == phone ||
    (match email with
     | some e => u.email == some e
     | none => false))

/-- Request body of `POST /api/v1/auth/register`. -/
structure RegisterBody where
  name : String
  email : Option String
  phone : String
  role : String
  location : Option String
  deriving Repr, DecidableEq

/-- Outcome of an auth handler: HTTP status, committed database, OTP store,
issued token (if any) and the `error` string of the JSON body (if any). -/
structure AuthResult where
  status : Nat
  db : DB
  store : OtpStore
  token : Option SessionToken
  error : Option String

/-- The `POST /api/v1/auth/register` handler. `code` is the value returned
by `generateOTP()` (a 6-digit numeric string, passed in explicitly since it
is random); `now` is `Date.now()`. -/
def register (db : DB) (st : OtpStore) (b : RegisterBody) (code : String)
    (now : Nat) : AuthResult :=
  if b.name == "" || b.phone == "" || b.role == "" then
    { status := 400, db := db, store := st, token := none,
      error := some "Name, phone, and role are required" }
  else if userExistsConflict db b.phone b.email then
    { status := 400, db := db, store := st, token := none,
      error := some "User already exists with this phone or email" }
  else
    { status := 200, db := db,
      store := storeSet st b.phone
        { otp := code
          userData := some { name := b.name, email := b.email, phone := b.phone,
                             role := b.role, location := b.location }
          expiresAt := now + 300000 }
      token := none, error := none }

/-- The `POST /api/v1/auth/request-otp` handler (login flow: no pending
user data is attached). The `index.js` variant also looks the phone up in
`users` but ignores the result, so the lookup is not modelled. -/
def requestOtp (st : OtpStore) (phone code : String) (now : Nat) :
    Nat × OtpStore :=
  if phone == "" then (400, st)
  else (200, storeSet st phone { otp := code, userData := none, expiresAt := now + 300000 })

/-- The `POST /api/v1/auth/verify-otp` handler. `newUserId` is the
server-assigned id of the user row created on the registration path. The
`INSERT INTO users` can hit the UNIQUE constraints on phone/email; that
database error is caught by the outer handler and answered with 500. -/
def verifyOtp (db : DB) (st : OtpStore) (phone otp : String) (now : Nat)
    (newUserId : Nat) : AuthResult :=
  if phone == "" || otp == "" then
    { status := 400, db := db, store := st, token := none,
      error := some "Phone and OTP are required" }
  else
    match storeGet st phone with
    | none =>
      { status := 400, db := db, store := st, token := none,
        error := some "OTP expired or invalid" }
    | some stored =>
      if stored.expiresAt < now then
        { status := 400, db := db, store := st, token := none,
          error := some "OTP expired or invalid" }
      else if stored.otp != otp then
        { status := 400, db := db, store := st, token := none,
          error := some "Invalid OTP" }
      else
        match stored.userData with
        | some ud =>
          if userExistsConflict db phone ud.email then
            { status := 500, db := db, store := st, token := none,
              error := some "Internal server error" }
          else
            let u : UserRow :=
              { id := newUserId, name := ud.name, email := ud.email, phone := phone,
                role := ud.role, location := ud.location, is_verified := true }
            { status := 200
              db := { db with users := db.users ++ [u] }
              store := storeDelete st phone
              token := some (jwtSign { userId := u.id, phone := u.phone, role := u.role })
              error := none }
        | none =>
          match db.users.find? (fun u => u.phone == phone) with
          | none =>
            { status := 400, db := db, store := st, token := none,
              error := some "User not found" }
          | some u =>
            { status := 200, db := db
              store := storeDelete st phone
              token := some (jwtSign { userId := u.id, phone := u.phone, role := u.role })
              error := none }

/-- Holds exactly when the submitted OTP cannot verify: the stored record is
absent, its expiry has passed, or the submitted code mismatches. -/
def otpRejected (st : OtpStore) (phone otp : String) (now : Nat) : Bool :=
  match storeGet st phone with
  | none => true
  | some stored => stored.expiresAt < now || stored.otp != otp

/-! ## Listings and equipment creation
(`src/index.js` lines 398-515, `src/index-sqlite.js` lines 380-501) -/

/-- SQL `LIKE '%pat%'` (resp. `ILIKE`) on the location filter, modelled as
substring containment (case folding of `ILIKE` is not modelled; the claims
under study do not depend on which rows a filter keeps, only that filters
never add rows). -/
def strContains (s pat : String) : Bool :=
  decide (pat.toList <:+: s.toList)

/-- The WHERE clause of `GET /api/v1/equipment`:
`availability_status = 'available'` plus the optional `type` and `location`
filters (an absent or empty query parameter is `none`: JS tests `if (type)`). -/
def equipmentPred (type? loc? : Option String) (e : EquipmentRow) : Bool :=
  e.availability_status == "available" &&
  (match type? with | some t => e.type == t | none => true) &&
  (match loc? with | some l => strContains e.location l | none => true)

/-- The WHERE clause of `GET /api/v1/produce`: `stock_kg > 0` plus the
optional `category` and `organic` filters. -/
def producePred (cat? : Option String) (org? : Option Bool) (p : ProduceRow) : Bool :=
  (0 < p.stock_kg) &&
  (match cat? with | some c => p.category == c | none => true) &&
  (match org? with | some b => p.organic == b | none => true)

/-- `JOIN users u ON e.owner_id = u.id` (an inner join: rows without an
owning user are dropped; `id` is a primary key, so at most one user
matches). The SELECT returns the row together with the owner's display
fields, modelled as the pair. -/
def joinOwner {α : Type} (ownerId : α → Nat) (rows : List α) (users : List UserRow) :
    List (α × UserRow) :=
  rows.flatMap (fun r => (users.filter (fun u => u.id == ownerId r)).map (fun u => (r, u)))

/-- Insertion step of the `ORDER BY created_at DESC` sort. -/
def insertDesc {α : Type} (key : α → Nat) (a : α) : List α → List α
  | [] => [a]
  | b :: l => if key b ≤ key a then a :: b :: l else b :: insertDesc key a l

/-- `ORDER BY key DESC` as an insertion sort (ties broken arbitrarily, as in
SQL). -/
def sortByKeyDesc {α : Type} (key : α → Nat) : List α → List α
  | [] => []
  | a :: l => insertDesc key a (sortByKeyDesc key l)

/-- A paginated listing response: the rows of the page and the
`pagination` object. -/
structure ListResponse (α : Type) where
  items : List α
  page : Nat
  limit : Nat
  total : Nat

/-- The `GET /api/v1/equipment` handler: filter, join the owner, sort by
`created_at` descending, apply `OFFSET (page-1)*limit` and `LIMIT limit`,
and report `total: result.rows.length` — the length of the returned page. -/
def equipmentList (db : DB) (page limit : Nat) (type? loc? : Option String) :
    ListResponse (EquipmentRow × UserRow) :=
  let offset := (page - 1) * limit
  let rows := (joinOwner (·.owner_id) db.equipment db.users).filter
    (fun r => equipmentPred type? loc? r.1)
  let pageRows := ((sortByKeyDesc (fun r => r.1.created_at) rows).drop offset).take limit
  { items := pageRows, page := page, limit := limit, total := pageRows.length }

/-- The `GET /api/v1/produce` handler, same shape as the equipment listing. -/
def produceList (db : DB) (page limit : Nat) (cat? : Option String) (org? : Option Bool) :
    ListResponse (ProduceRow × UserRow) :=
  let offset := (page - 1) * limit
  let rows := (joinOwner (·.farmer_id) db.produce db.users).filter
    (fun r => producePred cat? org? r.1)
  let pageRows := ((sortByKeyDesc (fun r => r.1.created_at) rows).drop offset).take limit
  { items := pageRows, page := page, limit := limit, total := pageRows.length }

/-- Request body of `POST /api/v1/equipment`. -/
structure EquipmentBody where
  name : String
  type : String
  description : Option String
  baseRatePerDay : ℚ
  location : String
  deriving Repr, DecidableEq

/-- The `POST /api/v1/equipment` route with its middleware chain:
`authenticateToken` (401 when no token is presented) then
`authorizeRole(['equipment_provider'])` (403 when the token's role is not in
the list) then the insert. `token?` is the verified bearer token, `newId`
the server-assigned row id, `now` the creation timestamp. -/
def postEquipment (db : DB) (token? : Option SessionToken) (body : EquipmentBody)
    (newId : Nat) (now : Nat) : Nat × DB :=
  match token? with
  | none => (401, db)
  | some tok =>
    let ident := jwtDecode tok
    if ["equipment_provider"].contains ident.role then
      (201, { db with equipment := db.equipment ++
        [{ id := newId, owner_id := ident.userId, name := body.name, type := body.type,
           description := body.description, base_rate_per_day := body.baseRatePerDay,
           location := body.location, availability_status := "available",
           created_at := now }] })
    else (403, db)

/-- The OTP store after two consecutive `request-otp` calls for the same
phone (the second overwrites the first: `otpStore.set` replaces). -/
def requestOtpTwice (st : OtpStore) (phone c1 c2 : String) (now1 now2 : Nat) : OtpStore :=
  (requestOtp (requestOtp st phone c1 now1).2 phone c2 now2).2

/-! ## Concrete sample data used by the witnesses -/

/-- A sample farmer user. -/
def farmerRajesh : UserRow :=
  { id := 5, name := "Rajesh Kumar", email := none, phone := "9876543210",
    role := "farmer", location := some "Punjab", is_verified := true }

/-- A sample produce catalog row (id 1) owned by `farmerRajesh`. -/
def produceTomatoes : ProduceRow :=
  { id := 1, farmer_id := 5, name := "Tomatoes", category := "vegetables",
    price_per_kg := 45, stock_kg := 500, organic := true, created_at := 10 }

/-- A sample product catalog row (id 2). -/
def productSeeds : ProductRow :=
  { id := 2, supplier_id := 6, name := "Seeds", category := "seeds",
    price_per_unit := 30, stock_quantity := 100 }

/-- A small concrete database: one farmer, one catalog produce row (id 1)
and one catalog product row (id 2). -/
def sampleDB : DB :=
  { users := [farmerRajesh]
    equipment := []
    produce := [produceTomatoes]
    products := [productSeeds]
    orders := []
    order_items := [] }

/-- A sample equipment provider. -/
def priyaUser : UserRow :=
  { id := 8, name := "Priya Sharma", email := none, phone := "9876543211",
    role := "equipment_provider", location := some "Haryana", is_verified := true }

/-- An available equipment row owned by `priyaUser`. -/
def eqTractor : EquipmentRow :=
  { id := 21, owner_id := 8, name := "Tractor", type := "tractor", description := none,
    base_rate_per_day := 1500, location := "Haryana", availability_status := "available",
    created_at := 2 }

/-- A second available equipment row owned by `priyaUser`. -/
def eqHarvester : EquipmentRow :=
  { id := 22, owner_id := 8, name := "Harvester", type := "harvester", description := none,
    base_rate_per_day := 2500, location := "Haryana", availability_status := "available",
    created_at := 1 }

/-- A database with one provider owning two available equipment rows; used
to exhibit that the reported `total` is the page length, not the
matching-row count. -/
def twoEquipmentDB : DB :=
  { users := [priyaUser]
    equipment := [eqTractor, eqHarvester]
    produce := [], products := [], orders := [], order_items := [] }

/-- A line item referencing the existing produce row of `sampleDB`. -/
def itemGood : OrderReqItem := { type := .produce, itemId := 1, sellerId := 5, quantity := 2 }

/-- A second line item referencing the existing product row of `sampleDB`. -/
def itemGood2 : OrderReqItem := { type := .product, itemId := 2, sellerId := 5, quantity := 3 }

/-- A line item referencing a catalog id absent from `sampleDB`. -/
def itemMissing : OrderReqItem := { type := .produce, itemId := 999, sellerId := 5, quantity := 1 }

/-- A registration body whose phone and email clash with no `sampleDB` user. -/
def regAsha : RegisterBody :=
  { name := "Asha", email := none, phone := "9000000001", role := "farmer", location := none }

/-- An OTP store holding one unexpired login code for an unknown phone. -/
def stStale : OtpStore :=
  [("9000000002", { otp := "111111", userData := none, expiresAt := 400000 })]

/-- An OTP store holding one unexpired login code for `sampleDB`'s farmer. -/
def stLogin : OtpStore :=
  [("9876543210", { otp := "654321", userData := none, expiresAt := 400000 })]

/-! ## Helper lemmas -/

theorem insertOrderItems_of_all_found (db : DB) (orderId : Nat) :
    ∀ items : List OrderReqItem,
      (∀ it ∈ items, (resolveUnitPrice db it).isSome) →
      ∃ rows, insertOrderItems db orderId items = some (rows, itemsTotal db items) ∧
        rows.length = items.length := by
  intro items
  induction items with
  | nil => intro _; exact ⟨[], rfl, rfl⟩
  | cons it rest ih =>
    intro h
    have hit : (resolveUnitPrice db it).isSome := h it (List.mem_cons_self it rest)
    obtain ⟨p, hp⟩ := Option.isSome_iff_exists.mp hit
    obtain ⟨rows, hrows, hlen⟩ := ih (fun x hx => h x (List.mem_cons_of_mem it hx))
    refine ⟨{ order_id := orderId
              produce_id := if it.type = .produce then some it.itemId else none
              product_id := if it.type = .product then some it.itemId else none
              quantity := it.quantity
              unit_price := p
              total_price := p * (it.quantity : ℚ) } :: rows, ?_, ?_⟩
    · simp [insertOrderItems, hp, hrows, itemsTotal, catalogPrice]
    · simp [hlen]

theorem insertOrderItems_of_missing (db : DB) (orderId : Nat) :
    ∀ items : List OrderReqItem,
      (∃ it ∈ items, resolveUnitPrice db it = none) →
      insertOrderItems db orderId items = none := by
  intro items
  induction items with
  | nil => rintro ⟨it, hmem, _⟩; cases hmem
  | cons hd rest ih =>
    rintro ⟨it, hmem, hnone⟩
    rcases List.mem_cons.mp hmem with heq | hmem'
    · subst heq
      simp [insertOrderItems, hnone]
    · cases hcase : resolveUnitPrice db hd with
      | none => simp [insertOrderItems, hcase]
      | some p => simp [insertOrderItems, hcase, ih ⟨it, hmem', hnone⟩]

theorem storeGet_set_self (st : OtpStore) (k : String) (e : OtpEntry) :
    storeGet (storeSet st k e) k = some e := by
  simp [storeGet, storeSet]

theorem storeGet_delete_self (st : OtpStore) (k : String) :
    storeGet (storeDelete st k) k = none := by
  induction st with
  | nil => rfl
  | cons hd tl ih =>
    by_cases h : hd.1 = k
    · simp [storeDelete, storeGet, h]
    · simp [storeDelete, storeGet, h]

/-- Shape of a successful `verify-otp` call: both request fields were
non-empty and the handler deleted the OTP record for the phone. -/
theorem verifyOtp_success_shape (db : DB) (st : OtpStore) (phone otp : String)
    (now uid : Nat) (hs : (verifyOtp db st phone otp now uid).status = 200) :
    (phone == "" || otp == "") = false ∧
    (verifyOtp db st phone otp now uid).store = storeDelete st phone := by
  cases h0 : (phone == "" || otp == "") with
  | true =>
    rw [verifyOtp, if_pos h0] at hs
    simp at hs
  | false =>
    refine ⟨rfl, ?_⟩
    rw [verifyOtp, if_neg (by simp [h0])] at hs ⊢
    cases hg : storeGet st phone with
    | none =>
      rw [hg] at hs
      simp at hs
    | some stored =>
      rw [hg] at hs
      by_cases hexp : stored.expiresAt < now
      · simp [hexp] at hs
      · cases hne : (stored.otp != otp) with
        | true => simp [hexp, hne] at hs
        | false =>
          have hne' : stored.otp = otp := by simpa using hne
          cases hud : stored.userData with
          | some ud =>
            by_cases hconf : userExistsConflict db phone ud.email = true
            · simp [hexp, hne', hud, hconf] at hs
            · simp [hexp, hne', hud, hconf]
          | none =>
            cases hu : db.users.find? (fun u => u.phone == phone) with
            | none => simp [hexp, hne', hud, hu] at hs
            | some u => simp [hexp, hne', hud, hu]

theorem mem_insertDesc {α : Type} (key : α → Nat) (a x : α) (l : List α) :
    x ∈ insertDesc key a l ↔ x = a ∨ x ∈ l := by
  induction l with
  | nil => simp [insertDesc]
  | cons b t ih =>
    by_cases h : key b ≤ key a
    · simp [insertDesc, h]
    · simp [insertDesc, h, ih]
      tauto

theorem mem_sortByKeyDesc {α : Type} (key : α → Nat) (x : α) (l : List α) :
    x ∈ sortByKeyDesc key l ↔ x ∈ l := by
  induction l with
  | nil => simp [sortByKeyDesc]
  | cons a t ih => simp [sortByKeyDesc, mem_insertDesc, ih]

/-- A `verify-otp` call with no stored record for the phone answers 400
`OTP expired or invalid`. -/
theorem verifyOtp_no_record (db : DB) (st : OtpStore) (phone otp : String)
    (now uid : Nat) (h0 : (phone == "" || otp == "") = false)
    (hg : storeGet st phone = none) :
    verifyOtp db st phone otp now uid =
      { status := 400, db := db, store := st, token := none,
        error := some "OTP expired or invalid" } := by
  rw [verifyOtp, if_neg (by simp [h0]), hg]

/-! ## Claim theorems -/

/-- Claim C1: for every order request by an authenticated buyer whose items
all reference existing produce or product catalog rows (the request carrying
at least one item — an itemless request is claim C10), the persisted order's
`total_amount` equals the sum over the items of the catalog unit price times
the item quantity, and the number of persisted `order_items` rows equals the
number of items in the request. -/
theorem createOrder_total_and_item_count
    (db : DB) (buyerId : Nat) (first : OrderReqItem) (rest : List OrderReqItem)
    (da : Option String) (oid : Nat)
    (hfound : ∀ it ∈ first :: rest, (resolveUnitPrice db it).isSome) :
    (createOrder db buyerId (some (first :: rest)) da oid).status = 201 ∧
    (∃ o ∈ (createOrder db buyerId (some (first :: rest)) da oid).db.orders,
       o.id = oid ∧ o.total_amount = itemsTotal db (first :: rest)) ∧
    (createOrder db buyerId (some (first :: rest)) da oid).db.order_items.length
      = db.order_items.length + (first :: rest).length := by
  obtain ⟨rows, hrows, hlen⟩ := insertOrderItems_of_all_found db oid (first :: rest) hfound
  refine ⟨?_, ?_, ?_⟩
  · simp [createOrder, hrows]
  · refine ⟨{ id := oid, buyer_id := buyerId, seller_id := first.sellerId,
              total_amount := itemsTotal db (first :: rest), delivery_address := da }, ?_, rfl, rfl⟩
    simp [createOrder, hrows]
  · simp [createOrder, hrows, hlen]

/-- Witness for C1: a two-item order (one produce, one product line) against
`sampleDB` commits with total 45·2 + 30·3 = 180 and two item rows. -/
theorem createOrder_total_and_item_count_witness :
    (createOrder sampleDB 9 (some (itemGood :: [itemGood2])) none 100).status = 201 ∧
    (∃ o ∈ (createOrder sampleDB 9 (some (itemGood :: [itemGood2])) none 100).db.orders,
       o.id = 100 ∧ o.total_amount = itemsTotal sampleDB (itemGood :: [itemGood2])) ∧
    (createOrder sampleDB 9 (some (itemGood :: [itemGood2])) none 100).db.order_items.length
      = sampleDB.order_items.length + (itemGood :: [itemGood2]).length :=
  createOrder_total_and_item_count sampleDB 9 itemGood [itemGood2] none 100 (by decide)

/-- Claim C2: when some line item references a catalog id that does not
exist, the transaction rolls back — no order row and no order-item rows
persist (the whole database is unchanged) — and the caller receives
HTTP 500. -/
theorem createOrder_rollback_on_missing_catalog
    (db : DB) (buyerId : Nat) (first : OrderReqItem) (rest : List OrderReqItem)
    (da : Option String) (oid : Nat)
    (hmiss : ∃ it ∈ first :: rest, resolveUnitPrice db it = none) :
    (createOrder db buyerId (some (first :: rest)) da oid).status = 500 ∧
    (createOrder db buyerId (some (first :: rest)) da oid).db = db := by
  have h := insertOrderItems_of_missing db oid (first :: rest) hmiss
  exact ⟨by simp [createOrder, h], by simp [createOrder, h]⟩

/-- Witness for C2: an order whose second item references the absent catalog
id 999 answers 500 and leaves `sampleDB` unchanged. -/
theorem createOrder_rollback_on_missing_catalog_witness :
    (createOrder sampleDB 9 (some (itemGood :: [itemMissing])) none 100).status = 500 ∧
    (createOrder sampleDB 9 (some (itemGood :: [itemMissing])) none 100).db = sampleDB :=
  createOrder_rollback_on_missing_catalog sampleDB 9 itemGood [itemMissing] none 100
    ⟨itemMissing, by decide, rfl⟩

/-- Claim C3: for every payload with non-empty name, phone and role where no
user with that phone or email exists, `register` followed by `verifyOtp`
with the generated (non-empty) code, before the 5-minute expiry, answers 200
and issues a session token whose decoded `userId` and `role` equal the id
and role of the newly created user row. -/
theorem register_then_verify_token_matches_user
    (db : DB) (st : OtpStore) (b : RegisterBody) (code : String)
    (now now2 uid : Nat)
    (hn : b.name ≠ "") (hp : b.phone ≠ "") (hr : b.role ≠ "") (hc : code ≠ "")
    (hnew : userExistsConflict db b.phone b.email = false)
    (hfresh : now2 ≤ now + 300000) :
    (register db st b code now).status = 200 ∧
    (verifyOtp (register db st b code now).db (register db st b code now).store
        b.phone code now2 uid).status = 200 ∧
    ∃ t, (verifyOtp (register db st b code now).db (register db st b code now).store
        b.phone code now2 uid).token = some t ∧
      ∃ u ∈ (verifyOtp (register db st b code now).db (register db st b code now).store
          b.phone code now2 uid).db.users,
        u.id = uid ∧ u.role = b.role ∧
        (jwtDecode t).userId = u.id ∧ (jwtDecode t).role = u.role := by
  have hn' : (b.name == "") = false := beq_eq_false_iff_ne.mpr hn
  have hp' : (b.phone == "") = false := beq_eq_false_iff_ne.mpr hp
  have hr' : (b.role == "") = false := beq_eq_false_iff_ne.mpr hr
  have hc' : (code == "") = false := beq_eq_false_iff_ne.mpr hc
  have hlt : ¬ (now + 300000 < now2) := Nat.not_lt.mpr hfresh
  have hreg : register db st b code now =
      { status := 200, db := db,
        store := storeSet st b.phone
          { otp := code
            userData := some { name := b.name, email := b.email, phone := b.phone,
                               role := b.role, location := b.location }
            expiresAt := now + 300000 }
        token := none, error := none } := by
    simp [register, hn', hp', hr', hnew]
  rw [hreg]
  refine ⟨rfl, ?_, ?_⟩
  · simp [verifyOtp, hp', hc', storeGet_set_self, hlt, hnew]
  · refine ⟨jwtSign { userId := uid, phone := b.phone, role := b.role }, ?_, ?_⟩
    · simp [verifyOtp, hp', hc', storeGet_set_self, hlt, hnew]
    · refine ⟨{ id := uid, name := b.name, email := b.email, phone := b.phone,
                role := b.role, location := b.location, is_verified := true },
              ?_, rfl, rfl, rfl, rfl⟩
      simp [verifyOtp, hp', hc', storeGet_set_self, hlt, hnew]

/-- Witness for C3: registering Asha against `sampleDB` and verifying with
the issued code yields a token whose payload names the fresh user id 42 and
role farmer. -/
theorem register_then_verify_token_matches_user_witness :
    (register sampleDB [] regAsha "123456" 0).status = 200 ∧
    (verifyOtp (register sampleDB [] regAsha "123456" 0).db
        (register sampleDB [] regAsha "123456" 0).store
        regAsha.phone "123456" 5 42).status = 200 ∧
    ∃ t, (verifyOtp (register sampleDB [] regAsha "123456" 0).db
        (register sampleDB [] regAsha "123456" 0).store
        regAsha.phone "123456" 5 42).token = some t ∧
      ∃ u ∈ (verifyOtp (register sampleDB [] regAsha "123456" 0).db
          (register sampleDB [] regAsha "123456" 0).store
          regAsha.phone "123456" 5 42).db.users,
        u.id = 42 ∧ u.role = regAsha.role ∧
        (jwtDecode t).userId = u.id ∧ (jwtDecode t).role = u.role :=
  register_then_verify_token_matches_user sampleDB [] regAsha "123456" 0 5 42
    (by decide) (by decide) (by decide) (by decide) (by decide) (by decide)

/-- Claim C4: when the stored OTP record is absent, its expiry has passed,
or the submitted code differs from the stored one, `verify-otp` answers 400,
inserts no user row and issues no token. -/
theorem verifyOtp_rejects_bad_code
    (db : DB) (st : OtpStore) (phone otp : String) (now uid : Nat)
    (h : otpRejected st phone otp now = true) :
    (verifyOtp db st phone otp now uid).status = 400 ∧
    (verifyOtp db st phone otp now uid).db = db ∧
    (verifyOtp db st phone otp now uid).token = none := by
  unfold otpRejected at h
  rw [verifyOtp]
  cases h0 : (phone == "" || otp == "") with
  | true => exact ⟨rfl, rfl, rfl⟩
  | false =>
    cases hg : storeGet st phone with
    | none => exact ⟨rfl, rfl, rfl⟩
    | some stored =>
      rw [hg] at h
      have h' : (decide (stored.expiresAt < now) || (stored.otp != otp)) = true := h
      by_cases hexp : stored.expiresAt < now
      · simp [hexp]
      · have hne : (stored.otp != otp) = true := by
          cases hor : (stored.otp != otp) with
          | true => rfl
          | false =>
            rw [hor, Bool.or_false] at h'
            exact absurd (of_decide_eq_true h') hexp
        simp [hexp, hne]

/-- Witness for C4: submitting code 222222 against a store holding 111111
for that phone is rejected with 400, no insert, no token. -/
theorem verifyOtp_rejects_bad_code_witness :
    (verifyOtp sampleDB stStale "9000000002" "222222" 10 7).status = 400 ∧
    (verifyOtp sampleDB stStale "9000000002" "222222" 10 7).db = sampleDB ∧
    (verifyOtp sampleDB stStale "9000000002" "222222" 10 7).token = none :=
  verifyOtp_rejects_bad_code sampleDB stStale "9000000002" "222222" 10 7 (by decide)

/-- Claim C5: a successful `verify-otp` deletes the OTP record for the
phone, so an immediate second `verify-otp` with the same phone and code
fails with 400 and the message `OTP expired or invalid`. -/
theorem verifyOtp_single_use
    (db : DB) (st : OtpStore) (phone otp : String) (now now2 uid uid2 : Nat)
    (hs : (verifyOtp db st phone otp now uid).status = 200) :
    storeGet (verifyOtp db st phone otp now uid).store phone = none ∧
    (verifyOtp (verifyOtp db st phone otp now uid).db
        (verifyOtp db st phone otp now uid).store phone otp now2 uid2).status = 400 ∧
    (verifyOtp (verifyOtp db st phone otp now uid).db
        (verifyOtp db st phone otp now uid).store phone otp now2 uid2).error
      = some "OTP expired or invalid" := by
  obtain ⟨h0, hst⟩ := verifyOtp_success_shape db st phone otp now uid hs
  refine ⟨?_, ?_, ?_⟩
  · rw [hst, storeGet_delete_self]
  · rw [hst, verifyOtp_no_record _ _ _ _ _ _ h0 (storeGet_delete_self st phone)]
  · rw [hst, verifyOtp_no_record _ _ _ _ _ _ h0 (storeGet_delete_self st phone)]

/-- Witness for C5: the farmer of `sampleDB` logs in with the stored code;
re-submitting the same code immediately afterwards is rejected as expired
or invalid. -/
theorem verifyOtp_single_use_witness :
    storeGet (verifyOtp sampleDB stLogin "9876543210" "654321" 10 7).store "9876543210" = none ∧
    (verifyOtp (verifyOtp sampleDB stLogin "9876543210" "654321" 10 7).db
        (verifyOtp sampleDB stLogin "9876543210" "654321" 10 7).store
        "9876543210" "654321" 11 8).status = 400 ∧
    (verifyOtp (verifyOtp sampleDB stLogin "9876543210" "654321" 10 7).db
        (verifyOtp sampleDB stLogin "9876543210" "654321" 10 7).store
        "9876543210" "654321" 11 8).error = some "OTP expired or invalid" :=
  verifyOtp_single_use sampleDB stLogin "9876543210" "654321" 10 11 7 8 (by decide)

/-- Claim C6: requesting an OTP twice for the same phone overwrites the
first record with the second; afterwards `verify-otp` fails with the first
code (when it differs from the second) and succeeds with the latest code
(for an existing, unexpired login). -/
theorem requestOtp_twice_latest_wins
    (db : DB) (st : OtpStore) (phone c1 c2 : String)
    (now1 now2 now3 uid : Nat)
    (hp : phone ≠ "") (hc1 : c1 ≠ "") (hc2 : c2 ≠ "") (hne : c1 ≠ c2)
    (hfresh : now3 ≤ now2 + 300000)
    (huser : (db.users.find? (fun u => u.phone == phone)).isSome) :
    storeGet (requestOtpTwice st phone c1 c2 now1 now2) phone
      = some { otp := c2, userData := none, expiresAt := now2 + 300000 } ∧
    (verifyOtp db (requestOtpTwice st phone c1 c2 now1 now2) phone c1 now3 uid).status = 400 ∧
    (verifyOtp db (requestOtpTwice st phone c1 c2 now1 now2) phone c1 now3 uid).token = none ∧
    (verifyOtp db (requestOtpTwice st phone c1 c2 now1 now2) phone c2 now3 uid).status = 200 := by
  have hp' : (phone == "") = false := beq_eq_false_iff_ne.mpr hp
  have hc1' : (c1 == "") = false := beq_eq_false_iff_ne.mpr hc1
  have hne' : (c2 != c1) = true := bne_iff_ne.mpr (Ne.symm hne)
  have hc2' : (c2 == "") = false := beq_eq_false_iff_ne.mpr hc2
  have hlt : ¬ (now2 + 300000 < now3) := Nat.not_lt.mpr hfresh
  have hst : requestOtpTwice st phone c1 c2 now1 now2 =
      storeSet (storeSet st phone { otp := c1, userData := none, expiresAt := now1 + 300000 })
        phone { otp := c2, userData := none, expiresAt := now2 + 300000 } := by
    simp [requestOtpTwice, requestOtp, hp']
  obtain ⟨u, hu⟩ := Option.isSome_iff_exists.mp huser
  rw [hst]
  refine ⟨storeGet_set_self _ _ _, ?_, ?_, ?_⟩
  · simp [verifyOtp, hp', hc1', storeGet_set_self, hlt, hne']
  · simp [verifyOtp, hp', hc1', storeGet_set_self, hlt, hne']
  · simp [verifyOtp, hp', hc2', storeGet_set_self, hlt, hu]

/-- Witness for C6: after requesting codes 111111 then 222222 for the
farmer's phone, only 222222 verifies; 111111 is rejected. -/
theorem requestOtp_twice_latest_wins_witness :
    storeGet (requestOtpTwice [] "9876543210" "111111" "222222" 0 1) "9876543210"
      = some { otp := "222222", userData := none, expiresAt := 1 + 300000 } ∧
    (verifyOtp sampleDB (requestOtpTwice [] "9876543210" "111111" "222222" 0 1)
        "9876543210" "111111" 2 7).status = 400 ∧
    (verifyOtp sampleDB (requestOtpTwice [] "9876543210" "111111" "222222" 0 1)
        "9876543210" "111111" 2 7).token = none ∧
    (verifyOtp sampleDB (requestOtpTwice [] "9876543210" "111111" "222222" 0 1)
        "9876543210" "222222" 2 7).status = 200 :=
  requestOtp_twice_latest_wins sampleDB [] "9876543210" "111111" "222222" 0 1 2 7
    (by decide) (by decide) (by decide) (by decide) (by decide) (by decide)

/-- Claim C10: an order request whose `items` field is absent or an empty
array fails with HTTP 500 (the read of `items[0]` throws inside the
transaction scope) and no order or order-item rows persist. -/
theorem createOrder_no_items_500 (db : DB) (buyerId : Nat) (da : Option String) (oid : Nat) :
    createOrder db buyerId none da oid = { status := 500, db := db, orderId := none } ∧
    createOrder db buyerId (some []) da oid = { status := 500, db := db, orderId := none } :=
  ⟨rfl, rfl⟩

/-- Claim C7: a `POST /api/v1/equipment` request carrying a valid session
token whose embedded role is not `equipment_provider` is answered 403 and
inserts no equipment row (the whole database is unchanged). -/
theorem postEquipment_forbidden_for_other_roles
    (db : DB) (tok : SessionToken) (body : EquipmentBody) (newId now : Nat)
    (h : (jwtDecode tok).role ≠ "equipment_provider") :
    (postEquipment db (some tok) body newId now).1 = 403 ∧
    (postEquipment db (some tok) body newId now).2 = db := by
  exact ⟨by simp [postEquipment, h], by simp [postEquipment, h]⟩

/-- Witness for C7: a farmer token cannot create equipment. -/
theorem postEquipment_forbidden_for_other_roles_witness :
    (postEquipment sampleDB
      (some (jwtSign { userId := 5, phone := "9876543210", role := "farmer" }))
      { name := "Tractor", type := "tractor", description := none,
        baseRatePerDay := 1500, location := "Punjab" } 77 0).1 = 403 ∧
    (postEquipment sampleDB
      (some (jwtSign { userId := 5, phone := "9876543210", role := "farmer" }))
      { name := "Tractor", type := "tractor", description := none,
        baseRatePerDay := 1500, location := "Punjab" } 77 0).2 = sampleDB :=
  postEquipment_forbidden_for_other_roles sampleDB
    (jwtSign { userId := 5, phone := "9876543210", role := "farmer" })
    { name := "Tractor", type := "tractor", description := none,
      baseRatePerDay := 1500, location := "Punjab" } 77 0 (by decide)

/-- Claim C8: both listing endpoints report `pagination.total` as the length
of the returned page (after LIMIT/OFFSET), and this differs from the count
of all matching rows in general (two matching equipment rows, limit 1,
total 1). -/
theorem listing_total_is_page_length :
    (∀ (db : DB) (page limit : Nat) (t l : Option String),
      (equipmentList db page limit t l).total
        = (equipmentList db page limit t l).items.length) ∧
    (∀ (db : DB) (page limit : Nat) (c : Option String) (o : Option Bool),
      (produceList db page limit c o).total
        = (produceList db page limit c o).items.length) ∧
    (equipmentList twoEquipmentDB 1 1 none none).total ≠
      ((joinOwner (·.owner_id) twoEquipmentDB.equipment twoEquipmentDB.users).filter
        (fun r => equipmentPred none none r.1)).length := by
  refine ⟨fun _ _ _ _ _ => rfl, fun _ _ _ _ _ => rfl, by decide⟩

/-- Claim C9: every row returned by the produce listing has
`stock_kg > 0` and every row returned by the equipment listing has
`availability_status = 'available'`, for all filters, pages and limits. -/
theorem listing_rows_satisfy_default_filter :
    (∀ (db : DB) (page limit : Nat) (c : Option String) (o : Option Bool)
        (r : ProduceRow × UserRow),
      r ∈ (produceList db page limit c o).items → 0 < r.1.stock_kg) ∧
    (∀ (db : DB) (page limit : Nat) (t l : Option String)
        (r : EquipmentRow × UserRow),
      r ∈ (equipmentList db page limit t l).items →
        r.1.availability_status = "available") := by
  constructor
  · intro db page limit c o r hr
    have hr1 : r ∈ ((sortByKeyDesc (fun q => q.1.created_at)
        ((joinOwner (fun p => p.farmer_id) db.produce db.users).filter
          (fun q => producePred c o q.1))).drop ((page - 1) * limit)).take limit := hr
    have hr' : r ∈ (sortByKeyDesc (fun q => q.1.created_at)
        ((joinOwner (fun p => p.farmer_id) db.produce db.users).filter
          (fun q => producePred c o q.1))) :=
      List.drop_subset _ _ (List.take_subset _ _ hr1)
    have hmem := (mem_sortByKeyDesc _ _ _).mp hr'
    have hpred := (List.mem_filter.mp hmem).2
    simp only [producePred, Bool.and_eq_true, decide_eq_true_eq] at hpred
    exact hpred.1.1
  · intro db page limit t l r hr
    have hr1 : r ∈ ((sortByKeyDesc (fun q => q.1.created_at)
        ((joinOwner (fun e => e.owner_id) db.equipment db.users).filter
          (fun q => equipmentPred t l q.1))).drop ((page - 1) * limit)).take limit := hr
    have hr' : r ∈ (sortByKeyDesc (fun q => q.1.created_at)
        ((joinOwner (fun e => e.owner_id) db.equipment db.users).filter
          (fun q => equipmentPred t l q.1))) :=
      List.drop_subset _ _ (List.take_subset _ _ hr1)
    have hmem := (mem_sortByKeyDesc _ _ _).mp hr'
    have hpred := (List.mem_filter.mp hmem).2
    simp only [equipmentPred, Bool.and_eq_true, beq_iff_eq] at hpred
    exact hpred.1.1

/-- Witness for C9: the sample produce row returned by the produce listing
has positive stock, and the sample tractor returned by the equipment listing
is available. -/
theorem listing_rows_satisfy_default_filter_witness :
    0 < produceTomatoes.stock_kg ∧ eqTractor.availability_status = "available" :=
  ⟨listing_rows_satisfy_default_filter.1 sampleDB 1 10 none none
      (produceTomatoes, farmerRajesh) (by decide),
   listing_rows_satisfy_default_filter.2 twoEquipmentDB 1 10 none none
      (eqTractor, priyaUser) (by decide)⟩

end AgriConnect
